import Mathlib

/-!
Verification of the text-to-SQL pipeline of backend/services/sql_service.py.

The Python functions are shallowly embedded as executable Lean functions on
`List Char` (Python `str` operations become list operations; the specific
regular expressions used by the source are hand-compiled to deterministic
character-list matchers with the same match/replace semantics). Strings are
converted at the boundary with `String.toList` / `String.mk`.
-/

set_option maxRecDepth 8192

namespace SqlService

/-- Python `\w` word character (ASCII fragment): letters, digits, underscore. -/
def isWordChar (c : Char) : Bool := c.isAlphanum || c = '_'

/-- Python whitespace as used by `str.strip()` and `\s`. -/
def isSpaceC (c : Char) : Bool :=
  c = ' ' || c = '\t' || c = '\n' || c = '\r' || c = '\x0b' || c = '\x0c'

/-- A single-quote or double-quote character (the regex class `['"]`). -/
def isQuoteC (c : Char) : Bool := c = '\'' || c = '"'

/-- Python `str.upper()` (ASCII fragment). -/
def upperL (l : List Char) : List Char := l.map Char.toUpper

/-- Python `str.lower()` (ASCII fragment). -/
def lowerL (l : List Char) : List Char := l.map Char.toLower

/-- Python `str.strip()`. -/
def stripL (l : List Char) : List Char :=
  ((l.dropWhile isSpaceC).reverse.dropWhile isSpaceC).reverse

/-- Python `str.lstrip()`. -/
def lstripL (l : List Char) : List Char := l.dropWhile isSpaceC

/-- `startswith` on character lists. -/
def swL : List Char → List Char → Bool
  | [], _ => true
  | _ :: _, [] => false
  | a :: as, b :: bs => a == b && swL as bs

/-- `endswith` on character lists. -/
def ewL (p l : List Char) : Bool := swL p.reverse l.reverse

/-- Python substring containment (`needle in haystack`). -/
def containsSubL (needle : List Char) : List Char → Bool
  | [] => swL needle []
  | c :: cs => swL needle (c :: cs) || containsSubL needle cs

/-- Index of the first occurrence of a substring (Python `str.find`, as Option). -/
def findSubIdx (needle : List Char) : List Char → Option Nat
  | [] => if swL needle [] then some 0 else none
  | c :: cs =>
    if swL needle (c :: cs) then some 0
    else (findSubIdx needle cs).map (· + 1)

/-- Index of the first occurrence of a character. -/
def findCharIdx (ch : Char) (l : List Char) : Option Nat := findSubIdx [ch] l

/-- Number of occurrences of a character (Python `str.count` for one char). -/
def countCharL (ch : Char) (l : List Char) : Nat :=
  (l.filter (fun x => x == ch)).length

/-- Whether a character occurs (Python `ch in s`). -/
def containsCharL (ch : Char) (l : List Char) : Bool :=
  l.any (fun x => x == ch)

/-- A regex word boundary is satisfied next to this (optional) neighbour
character, for a keyword that starts and ends with word characters. -/
def boundaryOk : Option Char → Bool
  | none => true
  | some c => !isWordChar c

/-- The literal keyword matches at the head of `l` with a trailing `\b`. -/
def wwAt (kw l : List Char) : Bool :=
  swL kw l && boundaryOk ((l.drop kw.length).head?)

/-- Scan for `\b kw \b` (keyword beginning and ending in word characters);
`prev` is the character just before the current position. -/
def wwSearchAux (kw : List Char) (prev : Option Char) : List Char → Bool
  | [] => boundaryOk prev && wwAt kw []
  | c :: cs => (boundaryOk prev && wwAt kw (c :: cs)) || wwSearchAux kw (some c) cs

/-- `re.search(r'\b' + kw + r'\b', l)` as a Bool, for keyword literals. -/
def wwSearch (kw l : List Char) : Bool := wwSearchAux kw none l

/-- Index of the first whole-word occurrence of `kw`. -/
def wwFindIdx (kw : List Char) (prev : Option Char) : List Char → Option Nat
  | [] => if boundaryOk prev && wwAt kw [] then some 0 else none
  | c :: cs =>
    if boundaryOk prev && wwAt kw (c :: cs) then some 0
    else (wwFindIdx kw (some c) cs).map (· + 1)

/-- `re.sub(r'--.*?$', '', sql, flags=re.MULTILINE)`: on each line, cut from
the first `--` to the end of the line (the newline itself survives). -/
def stripLCAux : Nat → Bool → List Char → List Char
  | 0, _, l => l
  | _ + 1, _, [] => []
  | n + 1, true, c :: cs =>
    if c = '\n' then c :: stripLCAux n false cs else stripLCAux n true cs
  | n + 1, false, c :: cs =>
    if swL ['-', '-'] (c :: cs) then stripLCAux n true ((c :: cs).drop 2)
    else c :: stripLCAux n false cs

def stripLineComments (l : List Char) : List Char := stripLCAux l.length false l

/-- `re.sub(r'/\*.*?\*/', '', sql, flags=re.DOTALL)`: remove each block
comment up to the nearest closing marker; an unclosed `/*` is left alone. -/
def stripBCAux : Nat → List Char → List Char
  | 0, l => l
  | _ + 1, [] => []
  | n + 1, c :: cs =>
    if swL ['/', '*'] (c :: cs) then
      match findSubIdx ['*', '/'] ((c :: cs).drop 2) with
      | some j => stripBCAux n (((c :: cs).drop 2).drop (j + 2))
      | none => c :: cs
    else c :: stripBCAux n cs

def stripBlockComments (l : List Char) : List Char := stripBCAux l.length l

/-- `sql_query.strip().upper()` (line 571 of sql_service.py). -/
def strippedUpper (s : String) : List Char := upperL (stripL s.toList)

/-- The comment-free upper-cased text scanned for deny-list keywords
(lines 576-578 of sql_service.py). -/
def commentFreeUpper (s : String) : List Char :=
  upperL (stripBlockComments (stripLineComments s.toList))

/-- The deny-list of is_read_only_query, in source order. -/
def dangerousKeywords : List String :=
  ["DELETE", "TRUNCATE", "DROP", "INSERT", "UPDATE", "ALTER",
   "CREATE TABLE", "CREATE INDEX", "CREATE VIEW", "CREATE PROCEDURE", "CREATE FUNCTION",
   "EXEC", "EXECUTE", "SP_", "XP_", "GRANT", "REVOKE",
   "MERGE", "BULK INSERT", "BACKUP", "RESTORE", "DBCC"]

/-- First deny-list keyword found as a whole word in the given text. -/
def firstDangerous (l : List Char) : Option String :=
  dangerousKeywords.find? (fun kw => wwSearch kw.toList l)

def onlySelectMsg : String :=
  "Only SELECT queries are allowed. You have read-only access to the database."

def multiStmtMsg : String :=
  "Multiple statements are not allowed. You have read-only access to the database."

def writeOpMsg (kw : String) : String :=
  "Write operations like '" ++ kw ++ "' are not allowed. You have read-only access to the VikasAI database."

/-- `is_read_only_query` (sql_service.py lines 569-605): the Safety Gate.
Returns (isReadOnly, reason). -/
def is_read_only_query (sql_query : String) : Bool × Option String :=
  if !(swL "SELECT".toList (strippedUpper sql_query)) then
    (false, some onlySelectMsg)
  else
    match firstDangerous (commentFreeUpper sql_query) with
    | some kw => (false, some (writeOpMsg kw))
    | none =>
      if containsCharL ';' sql_query.toList && decide (1 < countCharL ';' sql_query.toList) then
        (false, some multiStmtMsg)
      else
        (true, none)

/-- Matcher for `\b w1 \s+ w2 \b` at the head of `l` (both words made of
word characters, already in the right case). -/
def atPat2 (w1 w2 : List Char) (l : List Char) : Bool :=
  swL w1 l &&
    (let r := l.drop w1.length
     let r2 := r.dropWhile isSpaceC
     decide (r2.length < r.length) && swL w2 r2 &&
       boundaryOk ((r2.drop w2.length).head?))

def searchPat2Aux (w1 w2 : List Char) (prev : Option Char) : List Char → Bool
  | [] => boundaryOk prev && atPat2 w1 w2 []
  | c :: cs => (boundaryOk prev && atPat2 w1 w2 (c :: cs)) || searchPat2Aux w1 w2 (some c) cs

/-- `re.search(r'\b w1 \s+ w2 \b', l)` as a Bool. -/
def searchPat2 (w1 w2 : String) (l : List Char) : Bool :=
  searchPat2Aux w1.toList w2.toList none l

/-- Matcher for `\bupdate\s+\w+\s+set\b` at the head of `l`. -/
def atUpdateSet (l : List Char) : Bool :=
  swL "update".toList l &&
    (let r := l.drop 6
     let r2 := r.dropWhile isSpaceC
     decide (r2.length < r.length) &&
       (let w := r2.takeWhile isWordChar
        decide (0 < w.length) &&
          (let r3 := r2.drop w.length
           let r4 := r3.dropWhile isSpaceC
           decide (r4.length < r3.length) && swL "set".toList r4 &&
             boundaryOk ((r4.drop 3).head?))))

def searchUpdateSetAux (prev : Option Char) : List Char → Bool
  | [] => boundaryOk prev && atUpdateSet []
  | c :: cs => (boundaryOk prev && atUpdateSet (c :: cs)) || searchUpdateSetAux (some c) cs

/-- `contains_write_operation` (sql_service.py lines 199-241): the Intent
Pre-Filter's write-syntax detector. Returns (blocked, matched pattern). -/
def contains_write_operation (user_query : String) : Bool × Option String :=
  if user_query.toList.isEmpty then (false, none)
  else
    let ql := stripL (lowerL user_query.toList)
    if searchPat2 "delete" "from" ql then (true, some "\\bdelete\\s+from\\b")
    else if searchUpdateSetAux none ql then (true, some "\\bupdate\\s+\\w+\\s+set\\b")
    else if searchPat2 "insert" "into" ql then (true, some "\\binsert\\s+into\\b")
    else if searchPat2 "truncate" "table" ql then (true, some "\\btruncate\\s+table\\b")
    else if searchPat2 "drop" "table" ql then (true, some "\\bdrop\\s+table\\b")
    else if searchPat2 "drop" "database" ql then (true, some "\\bdrop\\s+database\\b")
    else if searchPat2 "alter" "table" ql then (true, some "\\balter\\s+table\\b")
    else if swL "execute".toList ql then
      if containsSubL "select".toList ql &&
          (containsSubL "this query".toList ql || containsSubL "query".toList ql) then
        (false, none)
      else if containsSubL "procedure".toList ql || containsSubL "exec".toList ql then
        (true, some "execute")
      else (false, none)
    else (false, none)

/-- The fixed greeting/filler deny list of is_valid_database_query. -/
def nonQueryPatterns : List String :=
  ["hello", "hi", "hey", "thanks", "thank you", "bye", "goodbye",
   "gg", "lol", "haha", "ok", "okay"]

/-- `is_valid_database_query` (sql_service.py lines 243-261). -/
def is_valid_database_query (user_query : String) : Bool :=
  if user_query.toList.isEmpty || decide ((stripL user_query.toList).length < 2) then false
  else !(nonQueryPatterns.map String.toList).contains (stripL (lowerL user_query.toList))

/-- Matcher for `(\w+)\s*=\s*(['"])([^'"]+)\2` at the head of `l`; returns
(column, quote, value, match length). -/
def tryP1 (l : List Char) : Option (List Char × Char × List Char × Nat) :=
  let w := l.takeWhile isWordChar
  if w.isEmpty then none
  else
    let r1 := l.drop w.length
    let r2 := r1.dropWhile isSpaceC
    match r2 with
    | '=' :: r3 =>
      let r4 := r3.dropWhile isSpaceC
      match r4 with
      | q :: r5 =>
        if isQuoteC q then
          let v := r5.takeWhile (fun c => !isQuoteC c)
          if v.isEmpty then none
          else
            match r5.drop v.length with
            | q2 :: rest =>
              if q2 = q then some (w, q, v, l.length - rest.length) else none
            | [] => none
        else none
      | [] => none
    | _ => none

/-- Matcher for `(\w+)\s+LIKE\s+(['"])([^'"]+)\2` (case-insensitive LIKE)
at the head of `l`; returns (column, quote, value, match length). -/
def tryP2 (l : List Char) : Option (List Char × Char × List Char × Nat) :=
  let w := l.takeWhile isWordChar
  if w.isEmpty then none
  else
    let r1 := l.drop w.length
    let r2 := r1.dropWhile isSpaceC
    if decide (r2.length < r1.length) && swL "LIKE".toList (upperL (r2.take 4)) then
      let r3 := r2.drop 4
      let r4 := r3.dropWhile isSpaceC
      if decide (r4.length < r3.length) then
        match r4 with
        | q :: r5 =>
          if isQuoteC q then
            let v := r5.takeWhile (fun c => !isQuoteC c)
            if v.isEmpty then none
            else
              match r5.drop v.length with
              | q2 :: rest =>
                if q2 = q then some (w, q, v, l.length - rest.length) else none
              | [] => none
          else none
        | [] => none
      else none
    else none

/-- Matcher for `(\w+)\s+IN\s+\((['"])([^\)]+)\2\)` (case-insensitive IN)
at the head of `l`; returns (column, quote, value, match length). -/
def tryP3 (l : List Char) : Option (List Char × Char × List Char × Nat) :=
  let w := l.takeWhile isWordChar
  if w.isEmpty then none
  else
    let r1 := l.drop w.length
    let r2 := r1.dropWhile isSpaceC
    if decide (r2.length < r1.length) && swL "IN".toList (upperL (r2.take 2)) then
      let r3 := r2.drop 2
      let r4 := r3.dropWhile isSpaceC
      if decide (r4.length < r3.length) then
        match r4 with
        | '(' :: q :: afterQ =>
          if isQuoteC q then
            let zone := afterQ.takeWhile (fun c => !(c = ')'))
            if decide (2 ≤ zone.length) && zone.getLast? == some q &&
                (afterQ.drop zone.length).head? == some ')' then
              some (w, q, zone.dropLast, l.length - (afterQ.length - (zone.length + 1)))
            else none
          else none
        | _ => none
      else none
    else none

/-- `value.replace('.','').replace('-','').isdigit()`. -/
def numericOnly (v : List Char) : Bool :=
  let f := v.filter (fun c => !(c = '.' || c = '-'))
  !f.isEmpty && f.all Char.isDigit

/-- The sub-query keyword screen inside replace_equals. -/
def kwInValue (v : List Char) : Bool :=
  ["SELECT", "FROM", "WHERE", "COUNT", "SUM", "AVG", "MAX", "MIN", "NULL"].any
    (fun k => containsSubL k.toList (upperL v))

/-- `LOWER(column)`/`UPPER(column)` already present in the WHERE clause. -/
def guardWrapped (wc col : List Char) : Bool :=
  containsSubL ("LOWER(".toList ++ col ++ [')']) wc ||
    containsSubL ("UPPER(".toList ++ col ++ [')']) wc

/-- `replace_equals` (sql_service.py lines 136-151). -/
def replaceEquals (wc fullMatch col : List Char) (q : Char) (v : List Char) : List Char :=
  if numericOnly v then fullMatch
  else if kwInValue v then fullMatch
  else if guardWrapped wc col then fullMatch
  else "LOWER(".toList ++ col ++ ") = LOWER(".toList ++ [q] ++ v ++ [q] ++ [')']

/-- `replace_like` (sql_service.py lines 153-165). -/
def replaceLike (wc fullMatch col : List Char) (q : Char) (v : List Char) : List Char :=
  if guardWrapped wc col then fullMatch
  else if !(containsCharL '%' v) && !(containsCharL '_' v) then
    col ++ " LIKE ".toList ++ [q, '%'] ++ v ++ ['%', q]
  else col ++ " LIKE ".toList ++ [q] ++ v ++ [q]

/-- Split a character list on a separator character (Python `str.split(sep)`). -/
def splitOnCharF (ch : Char) : Nat → List Char → List (List Char)
  | 0, l => [l]
  | _ + 1, [] => [[]]
  | n + 1, c :: cs =>
    if c = ch then [] :: splitOnCharF ch n cs
    else
      match splitOnCharF ch n cs with
      | [] => [[c]]
      | p :: ps => (c :: p) :: ps

def splitOnCharL (ch : Char) (l : List Char) : List (List Char) :=
  splitOnCharF ch l.length l

/-- Python `str.strip(ch)`: remove all leading and trailing copies of `ch`. -/
def stripCharL (ch : Char) (l : List Char) : List Char :=
  ((l.dropWhile (fun c => c = ch)).reverse.dropWhile (fun c => c = ch)).reverse

/-- `replace_in` (sql_service.py lines 167-175). Note: the quoted values are
re-assembled verbatim, they are not wrapped in LOWER. -/
def replaceIn (col : List Char) (q : Char) (v : List Char) : List Char :=
  let values := (splitOnCharL ',' v).map (fun p => stripCharL q (stripL p))
  let joined := List.intercalate ", ".toList (values.map (fun p => [q] ++ p ++ [q]))
  "LOWER(".toList ++ col ++ ") IN (".toList ++ joined ++ [')']

/-- `re.sub(pattern1, replace_equals, where_clause)` driver. -/
def subP1 (wc : List Char) : Nat → List Char → List Char
  | 0, l => l
  | _ + 1, [] => []
  | n + 1, c :: cs =>
    match tryP1 (c :: cs) with
    | some (col, q, v, len) =>
      replaceEquals wc ((c :: cs).take len) col q v ++ subP1 wc n ((c :: cs).drop len)
    | none => c :: subP1 wc n cs

/-- `re.sub(pattern2, replace_like, ...)` driver. -/
def subP2 (wc : List Char) : Nat → List Char → List Char
  | 0, l => l
  | _ + 1, [] => []
  | n + 1, c :: cs =>
    match tryP2 (c :: cs) with
    | some (col, q, v, len) =>
      replaceLike wc ((c :: cs).take len) col q v ++ subP2 wc n ((c :: cs).drop len)
    | none => c :: subP2 wc n cs

/-- `re.sub(pattern3, replace_in, ...)` driver. -/
def subP3 : Nat → List Char → List Char
  | 0, l => l
  | _ + 1, [] => []
  | n + 1, c :: cs =>
    match tryP3 (c :: cs) with
    | some (col, q, v, len) =>
      replaceIn col q v ++ subP3 n ((c :: cs).drop len)
    | none => c :: subP3 n cs

/-- Match at head for one alternative of the WHERE-clause terminator pattern
`\b(ORDER\s+BY|GROUP\s+BY|HAVING|UNION|INTERSECT|EXCEPT)\b` (on upper text). -/
def whereEndAt (l : List Char) : Bool :=
  atPat2 "ORDER".toList "BY".toList l || atPat2 "GROUP".toList "BY".toList l ||
    wwAt "HAVING".toList l || wwAt "UNION".toList l ||
    wwAt "INTERSECT".toList l || wwAt "EXCEPT".toList l

def findWhereEnd (prev : Option Char) : List Char → Option Nat
  | [] => none
  | c :: cs =>
    if boundaryOk prev && whereEndAt (c :: cs) then some 0
    else (findWhereEnd (some c) cs).map (· + 1)

/-- `make_case_insensitive` (sql_service.py lines 106-188): rewrites
equality/LIKE/IN predicates inside the WHERE clause. -/
def make_case_insensitive (sql_query : String) : String :=
  if containsSubL "LOWER(".toList (upperL sql_query.toList) &&
      containsSubL "ILIKE".toList (upperL sql_query.toList) then
    sql_query
  else
    match wwFindIdx "WHERE".toList none (upperL sql_query.toList) with
    | none => sql_query
    | some i =>
      let before := sql_query.toList.take i
      let wca := sql_query.toList.drop i
      let wc :=
        match findWhereEnd none (upperL wca) with
        | some j => wca.take j
        | none => wca
      let after :=
        match findWhereEnd none (upperL wca) with
        | some j => wca.drop j
        | none => []
      let m1 := subP1 wc wc.length wc
      let m2 := subP2 wc m1.length m1
      let m3 := subP3 m2.length m2
      String.mk (before ++ m3 ++ after)

/-- The explanatory lead-ins removed by extract_sql_from_response. -/
def explanatoryPrefixes : List String :=
  ["here is the sql query:", "here's the sql:", "the sql query is:",
   "sql query:", "query:", "sql:"]

/-- One step of the lead-in removal loop (`response.lower().startswith(p)`
then slice and strip). -/
def dropExplanatoryLead (r : List Char) (p : String) : List Char :=
  if swL p.toList (lowerL r) then stripL (r.drop p.toList.length) else r

/-- Lead-ins that terminate the SQL line scan. -/
def breakPrefixes : List String :=
  ["there are", "the query", "this will", "note:", "warning:", "error:",
   "the result", "this query", "allowed", "permitted", "read-only"]

/-- Tokens whose presence makes a line count as SQL in the line scan. -/
def sqlLineKeywords : List String :=
  ["WITH", "SELECT", "FROM", "WHERE", "JOIN", "ORDER", "GROUP", "HAVING",
   "COUNT", "SUM", "AVG", "MAX", "MIN", "TOP", "DISTINCT", "AS", "ON",
   "AND", "OR", "IN", "LIKE", "BETWEEN", "IS", "NULL",
   "[", "]", "(", ")", ";", ",", "=", "<", ">", "!"]

/-- The line-accumulation loop of extract_sql_from_response (lines 73-86). -/
def collectSqlLines : List (List Char) → List (List Char) → List (List Char)
  | acc, [] => acc
  | acc, line :: rest =>
    let ls := stripL line
    if ls.isEmpty then collectSqlLines acc rest
    else if breakPrefixes.any (fun p => swL p.toList (lowerL ls)) then acc
    else if !(sqlLineKeywords.any (fun k => containsSubL k.toList (upperL ls))) &&
        !acc.isEmpty then acc
    else collectSqlLines (acc ++ [line]) rest

/-- `" ".join(sql_lines).strip()`. -/
def joinLines (ls : List (List Char)) : List Char :=
  stripL (List.intercalate [' '] ls)

/-- `extract_sql_from_response` (sql_service.py lines 21-104). -/
def extract_sql_from_response (response : String) : String :=
  if response.toList.isEmpty then ""
  else
    let r1 := explanatoryPrefixes.foldl dropExplanatoryLead (stripL response.toList)
    let ru := upperL r1
    if containsSubL "WITH".toList ru || containsSubL "SELECT".toList ru then
      let sqlPart :=
        if containsSubL "WITH".toList ru then
          match findSubIdx "WITH".toList ru, findSubIdx "SELECT".toList ru with
          | some wi, some si => if wi < si then r1.drop wi else r1.drop si
          | some wi, none => r1.drop wi
          | none, _ => r1
        else
          match findSubIdx "SELECT".toList ru with
          | some si => r1.drop si
          | none => r1
      let sqlPart2 :=
        match findCharIdx ';' sqlPart with
        | some i =>
          if 0 < i then sqlPart.take (i + 1)
          else joinLines (collectSqlLines [] (splitOnCharL '\n' sqlPart))
        | none => joinLines (collectSqlLines [] (splitOnCharL '\n' sqlPart))
      if swL "WITH".toList (upperL sqlPart2) || swL "SELECT".toList (upperL sqlPart2) then
        String.mk sqlPart2
      else
        match findSubIdx "WITH".toList (upperL sqlPart2),
            findSubIdx "SELECT".toList (upperL sqlPart2) with
        | some w, some s => String.mk (if w < s then sqlPart2.drop w else sqlPart2.drop s)
        | some w, none => String.mk (sqlPart2.drop w)
        | none, some s => String.mk (sqlPart2.drop s)
        | none, none => ""
    else String.mk r1

/-- Matcher for one `(\w+)\s+AS\s*\(` occurrence (case-insensitive AS) at the
head of `l`; returns the match length. -/
def atCTE (l : List Char) : Option Nat :=
  let w := l.takeWhile isWordChar
  if w.isEmpty then none
  else
    let r1 := l.drop w.length
    let r2 := r1.dropWhile isSpaceC
    if decide (r2.length < r1.length) && swL "AS".toList (upperL (r2.take 2)) then
      let r3 := r2.drop 2
      let r4 := r3.dropWhile isSpaceC
      match r4 with
      | '(' :: _ => some (l.length - (r4.length - 1))
      | _ => none
    else none

/-- `re.findall(r'(\w+)\s+AS\s*\(', sql)` match count. -/
def countCTE : Nat → List Char → Nat
  | 0, _ => 0
  | _ + 1, [] => 0
  | n + 1, c :: cs =>
    match atCTE (c :: cs) with
    | some len => 1 + countCTE n ((c :: cs).drop len)
    | none => countCTE n cs

/-- CTE repair (sql_service.py lines 532-541): prepend WITH when the text has
at least two `name AS (` groups and does not already start with WITH. -/
def cteRepair (sql : List Char) : List Char :=
  if containsSubL " AS (".toList (upperL sql) && !(swL "WITH".toList (upperL sql)) then
    if 1 < countCTE sql.length sql then "WITH ".toList ++ lstripL sql else sql
  else sql

/-- Matcher for `\bSELECT\s+TOP\s+100\b` (case-insensitive) at the head of
`l`; returns the match length (the leading boundary is the caller's). -/
def atSelTop100 (l : List Char) : Option Nat :=
  if swL "SELECT".toList (upperL (l.take 6)) then
    let r1 := l.drop 6
    let r2 := r1.dropWhile isSpaceC
    if decide (r2.length < r1.length) && swL "TOP".toList (upperL (r2.take 3)) then
      let r3 := r2.drop 3
      let r4 := r3.dropWhile isSpaceC
      if decide (r4.length < r3.length) && swL "100".toList r4 &&
          boundaryOk ((r4.drop 3).head?) then
        some (l.length - (r4.length - 3))
      else none
    else none
  else none

/-- `re.sub(r'\bSELECT\s+TOP\s+100\b', 'SELECT', sql, flags=re.IGNORECASE)`. -/
def subSelTop (prev : Option Char) : Nat → List Char → List Char
  | 0, l => l
  | _ + 1, [] => []
  | n + 1, c :: cs =>
    if boundaryOk prev then
      match atSelTop100 (c :: cs) with
      | some len => "SELECT".toList ++ subSelTop (some '0') n ((c :: cs).drop len)
      | none => c :: subSelTop (some c) n cs
    else c :: subSelTop (some c) n cs

/-- `re.sub(r'\s+', ' ', sql)`. -/
def collapseWsF : Nat → List Char → List Char
  | 0, l => l
  | _ + 1, [] => []
  | n + 1, c :: cs =>
    if isSpaceC c then ' ' :: collapseWsF n (cs.dropWhile isSpaceC)
    else c :: collapseWsF n cs

/-- Default-limit removal (sql_service.py lines 543-555); raises when SELECT
vanished. -/
def topRemoval (user_query : String) (sql : List Char) : Except String (List Char) :=
  if containsSubL "top 100".toList (lowerL sql) &&
      !(containsSubL "top 100".toList (lowerL user_query.toList) ||
        containsSubL "top hundred".toList (lowerL user_query.toList)) then
    let s1 := subSelTop none sql.length sql
    let s2 := stripL s1
    let s3 := collapseWsF s2.length s2
    if wwSearch "SELECT".toList (upperL s3) then .ok s3
    else .error "SQL extraction error: SELECT keyword missing after TOP removal"
  else .ok sql

/-- Python `str.replace(pat, rep)`: all occurrences, left to right, without
rescanning the replacement text. -/
def replaceAllF (pat rep : List Char) : Nat → List Char → List Char
  | 0, l => l
  | _ + 1, [] => []
  | n + 1, c :: cs =>
    if swL pat (c :: cs) then rep ++ replaceAllF pat rep n ((c :: cs).drop pat.length)
    else c :: replaceAllF pat rep n cs

def replaceAllL (pat rep l : List Char) : List Char := replaceAllF pat rep l.length l

/-- COUNT(*) aliasing (sql_service.py lines 560-563). -/
def countAlias (sql : List Char) : List Char :=
  if containsSubL "COUNT(*)".toList (upperL sql) &&
      !(containsSubL " AS ".toList (upperL sql)) &&
      !(containsSubL "COUNT(*) AS".toList (upperL sql)) then
    replaceAllL "count(*)".toList "COUNT(*) as count".toList
      (replaceAllL "COUNT(*)".toList "COUNT(*) as count".toList sql)
  else sql

/-- The SQL Normalizer: the post-extraction rewriting pipeline of
generate_sql_query (sql_service.py lines 532-563) — CTE repair, default
TOP-100 removal, WHERE-clause case-insensitive rewriting, ILIKE
replacement, COUNT(*) aliasing. -/
def normalize_sql (user_query sql_query : String) : Except String String :=
  match topRemoval user_query (cteRepair sql_query.toList) with
  | .error e => .error e
  | .ok s2 =>
    let s3 := (make_case_insensitive (String.mk s2)).toList
    let s4 := replaceAllL "ILIKE".toList "LIKE".toList s3
    .ok (String.mk (countAlias s4))

/-- The SQL-keyword list of the first tag-injection screen (line 466). -/
def sqlKwList10 : List String :=
  ["SELECT", "FROM", "WHERE", "INSERT", "UPDATE", "DELETE",
   "CREATE", "ALTER", "DROP", "TRUNCATE"]

def clarificationPhrases : List String :=
  ["which table", "which table's", "please specify", "available tables",
   "what would you like", "could you please", "please provide"]

def textIndicators1 : List String :=
  ["excel", "formula", "=", "average", "sum", "count", "today()", "if(",
   "vlookup", "to calculate", "you can use", "here is", "the following",
   "this formula"]

def kwList6 : List String :=
  ["SELECT", "FROM", "WHERE", "INSERT", "UPDATE", "DELETE"]

def textIndicators2 : List String :=
  ["excel", "formula", "average", "sum", "count", "today()", "if(",
   "vlookup", "to calculate", "you can use", "here is", "the following",
   "this formula", "```excel", "=average", "=sum", "=count"]

def kwList3 : List String := ["WITH", "SELECT", "FROM"]

def hasSqlKeywords (l : List Char) : Bool :=
  sqlKwList10.any (fun k => containsSubL k.toList (upperL l))

def looksLikeClarification (l : List Char) : Bool :=
  clarificationPhrases.any (fun p => containsSubL p.toList (lowerL l))

def looksLikeTextAnswer (l : List Char) : Bool :=
  textIndicators1.any (fun p => containsSubL p.toList (lowerL l))

/-- The Response Classifier & Extractor: the post-model-response part of
generate_sql_query (sql_service.py lines 454-565), as a function of the raw
model completion. `.error` models the raised extraction exception. -/
def classify_response (user_query response : String) : Except String String :=
  let rs := stripL response.toList
  if swL "CLARIFICATION_NEEDED:".toList rs then .ok (String.mk rs)
  else if swL "LOGICAL_ANSWER:".toList rs then .ok (String.mk rs)
  else if !(hasSqlKeywords rs) && looksLikeClarification rs then
    .ok (if swL "CLARIFICATION_NEEDED:".toList rs then String.mk rs
         else String.mk ("CLARIFICATION_NEEDED: ".toList ++ rs))
  else if !(hasSqlKeywords rs) && looksLikeTextAnswer rs then
    .ok (String.mk ("LOGICAL_ANSWER: ".toList ++ rs))
  else if rs == "READ_ONLY_ERROR".toList || swL "READ_ONLY_ERROR".toList rs then
    .ok "READ_ONLY_ERROR"
  else if rs == "INVALID_QUERY".toList || swL "INVALID_QUERY".toList rs then
    .ok "INVALID_QUERY"
  else
    let sql0 := (extract_sql_from_response response).toList
    if (sql0.isEmpty || !(kwList6.any (fun k => containsSubL k.toList (upperL sql0)))) &&
        textIndicators2.any (fun p => containsSubL p.toList (lowerL rs)) then
      .ok (String.mk ("LOGICAL_ANSWER: ".toList ++ rs))
    else
      let s1 := if swL "```sql".toList sql0 then sql0.drop 6 else sql0
      let s2 := if swL "```".toList s1 then s1.drop 3 else s1
      let s3 := if ewL "```".toList s2 then s2.take (s2.length - 3) else s2
      let s4 := stripL s3
      if s4.isEmpty || !(kwList3.any (fun k => containsSubL k.toList (upperL s4))) then
        .ok (String.mk ("LOGICAL_ANSWER: ".toList ++ rs))
      else normalize_sql user_query (String.mk s4)

/-- `generate_sql_query` (sql_service.py lines 263-567), parameterized by the
raw model completion `response` (the model backend is external). `.ok none`
is Python's `return None`; `.error` is the wrapped raised exception. The two
pre-model guards do not consult `response` at all. -/
def generate_sql_query (user_query : String) (response : String) :
    Except String (Option String) :=
  if (contains_write_operation user_query).1 then .ok (some "READ_ONLY_ERROR")
  else if !is_valid_database_query user_query then .ok none
  else
    match classify_response user_query response with
    | .ok s => .ok (some s)
    | .error e => .error ("Error generating SQL: " ++ e)

/-- A database cell value as returned by the driver. -/
inductive Val where
  | int (n : Int)
  | str (s : String)
  | null
deriving DecidableEq, Repr

/-- Line 624: `sql_query.replace('ILIKE', 'LIKE')` before execution. -/
def ilike_replaced (sql : String) : String :=
  String.mk (replaceAllL "ILIKE".toList "LIKE".toList sql.toList)

/-- `SELECT COUNT(*) as total FROM ({sql}) as subquery` (line 635). -/
def count_query (sql : String) : String :=
  "SELECT COUNT(*) as total FROM (" ++ sql ++ ") as subquery"

/-- `re.sub(r'\bSELECT\b', 'SELECT TOP {limit}', sql, count=1, re.IGNORECASE)`. -/
def insertTopOnce (limit : Int) (prev : Option Char) : Nat → List Char → List Char
  | 0, l => l
  | _ + 1, [] => []
  | n + 1, c :: cs =>
    if boundaryOk prev && swL "SELECT".toList (upperL ((c :: cs).take 6)) &&
        boundaryOk (((c :: cs).drop 6).head?) then
      ("SELECT TOP ".toList ++ (toString limit).toList) ++ (c :: cs).drop 6
    else c :: insertTopOnce limit (some c) n cs

/-- The statement actually executed (lines 644-649): the TOP-injected query
when no TOP is present and the limit is positive. -/
def limited_query (sql : String) (limit : Int) : String :=
  let s2 := (ilike_replaced sql).toList
  if !(containsSubL "TOP".toList (upperL s2)) && decide (0 < limit) then
    String.mk (insertTopOnce limit none s2.length s2)
  else String.mk s2

/-- The best-effort total count (lines 631-642): the first cell of the first
row of the wrapping COUNT query, `none` on any failure. -/
def total_count_of (db : String → Except String (List String × List (List Val)))
    (sql : String) : Option Val :=
  match db (count_query (ilike_replaced sql)) with
  | .ok (_, rows) =>
    match rows.head? with
    | some row => row.head?
    | none => none
  | .error _ => none

/-- `execute_sql_query` (sql_service.py lines 607-673): the Execution
Wrapper. The database driver is the oracle `db` mapping a SQL text to either
rows-with-column-names or a raised error; `conn` models
`get_sqlserver_connection()`. Row dictionaries are represented as
column-name/value association lists (`dict(zip(columns, row))`). -/
def execute_sql_query (db : String → Except String (List String × List (List Val)))
    (conn : Except String Unit) (sql_query : String) (limit : Int) :
    Option (List (List (String × Val))) × Option String × Option Val :=
  match is_read_only_query sql_query with
  | (false, msg) => (none, msg, none)
  | (true, _) =>
    match conn with
    | .error e => (none, some ("SQL execution error: " ++ e), none)
    | .ok _ =>
      match db (limited_query sql_query limit) with
      | .error e => (none, some ("SQL execution error: " ++ e), none)
      | .ok (cols, rows) =>
        (some (rows.map (fun row => cols.zip row)), none, total_count_of db sql_query)

/-- Follows the spec's words (claim C4): the number of semicolons not
enclosed in string literals, tracked with a quote-toggle scan. -/
def countSemisOutside : Option Char → List Char → Nat
  | _, [] => 0
  | some q, c :: cs =>
    if c = q then countSemisOutside none cs else countSemisOutside (some q) cs
  | none, c :: cs =>
    if c = '\'' || c = '"' then countSemisOutside (some c) cs
    else (if c = ';' then 1 else 0) + countSemisOutside none cs

/-- Follows the spec's words (claim C4): semicolons outside string literals. -/
def semicolonsOutsideLiterals (l : List Char) : Nat := countSemisOutside none l

/-- A concrete database oracle whose COUNT wrapper query fails while the main
query succeeds (used to witness the best-effort total count). -/
def dbW : String → Except String (List String × List (List Val)) :=
  fun s =>
    if s = count_query (ilike_replaced "SELECT 1") then .error "count shape"
    else .ok (["x"], [[Val.int 1]])

end SqlService

deriving instance DecidableEq for Except

namespace SqlService

/-- A nonempty prefix determines the head of the list. -/
theorem swL_cons (a : Char) (p l : List Char) (h : swL (a :: p) l = true) :
    ∃ t, l = a :: t ∧ swL p t = true := by
  cases l with
  | nil => simp [swL] at h
  | cons c cs =>
    simp [swL] at h
    exact ⟨cs, by rw [h.1], h.2⟩

/-- A positive character count implies the character occurs. -/
theorem containsChar_of_count (c : Char) (l : List Char) (h : 0 < countCharL c l) :
    containsCharL c l = true := by
  induction l with
  | nil => simp [countCharL] at h
  | cons a as ih =>
    cases hb : (a == c) with
    | true => simp [containsCharL, List.any_cons, hb]
    | false =>
      have h' : 0 < countCharL c as := by
        simpa [countCharL, List.filter_cons, hb] using h
      simpa [containsCharL, List.any_cons, hb] using ih h'

/-- Claim C1 (code bug): the Safety Gate rejects a bare CTE statement. For a
well-formed `WITH ... SELECT` text, `is_read_only_query` returns
isReadOnly = false with the only-SELECT message, because the prefix check
(line 589) accepts only texts whose stripped upper-cased form starts with
SELECT — even though the stripped form here starts with WITH, and the
upstream normalizer itself synthesizes exactly such WITH-prefixed texts. -/
theorem safety_gate_rejects_cte :
    is_read_only_query "WITH T AS (SELECT 1 AS X) SELECT X FROM T"
      = (false, some onlySelectMsg) ∧
    swL "WITH".toList (strippedUpper "WITH T AS (SELECT 1 AS X) SELECT X FROM T") = true := by
  exact ⟨by decide, by decide⟩

/-- Claim C2: Safety Gate comment handling works in both directions. A line
comment is stripped before the deny-list scan, so a DROP hidden in it does
not cause rejection, while a statement whose SELECT occurs only inside a
block comment is rejected (isReadOnly = false). -/
theorem safety_gate_comment_both_directions :
    is_read_only_query "SELECT * FROM T -- DROP TABLE T" = (true, none) ∧
    (is_read_only_query "/* SELECT 1 */ DELETE FROM T").1 = false := by
  exact ⟨by decide, by decide⟩

/-- Claim C3: deny-list matching is whole-word bounded. The substring
UPDATED does not trigger the UPDATE keyword, while a whole-word DROP is
rejected with the corresponding reason. -/
theorem safety_gate_word_boundary :
    is_read_only_query "SELECT * FROM T WHERE DESC LIKE '%UPDATED%'" = (true, none) ∧
    is_read_only_query "SELECT * FROM T; DROP TABLE T" = (false, some (writeOpMsg "DROP")) := by
  exact ⟨by decide, by decide⟩

/-- Claim C4 (counterexample): the multi-statement rejection is not governed
by semicolons outside string literals. This text has no semicolon outside a
string literal, yet the gate rejects it as multiple statements, because the
code counts every semicolon of the raw text (line 602). -/
theorem multi_statement_semicolon_counterexample :
    semicolonsOutsideLiterals "SELECT * FROM T WHERE X = ';;'".toList ≤ 1 ∧
    is_read_only_query "SELECT * FROM T WHERE X = ';;'" = (false, some multiStmtMsg) := by
  exact ⟨by decide, by decide⟩

/-- Claim C4 (amended): for a text passing the SELECT-prefix check and the
deny-list scan, the gate reports the multiple-statements rejection exactly
when the total number of semicolon characters in the raw text — string
literals included — exceeds one. -/
theorem multi_statement_iff_total_semicolons (s : String)
    (hsel : swL "SELECT".toList (strippedUpper s) = true)
    (hkw : firstDangerous (commentFreeUpper s) = none) :
    (is_read_only_query s).2 = some multiStmtMsg ↔ 1 < countCharL ';' s.toList := by
  have hgate : is_read_only_query s =
      (if containsCharL ';' s.toList && decide (1 < countCharL ';' s.toList)
       then (false, some multiStmtMsg) else (true, none)) := by
    unfold is_read_only_query
    rw [hsel, hkw]
    rfl
  rw [hgate]
  cases hb : (containsCharL ';' s.toList && decide (1 < countCharL ';' s.toList)) with
  | true =>
    show ((false, some multiStmtMsg) : Bool × Option String).2 = some multiStmtMsg
        ↔ 1 < countCharL ';' s.toList
    exact iff_of_true rfl (of_decide_eq_true ((Bool.and_eq_true _ _).mp hb).2)
  | false =>
    show (none : Option String) = some multiStmtMsg ↔ 1 < countCharL ';' s.toList
    constructor
    · intro h; exact Option.noConfusion h
    · intro hgt
      exfalso
      have hcont := containsChar_of_count ';' s.toList
        (Nat.lt_of_le_of_lt (Nat.zero_le 1) hgt)
      rw [hcont, decide_eq_true hgt] at hb
      exact absurd hb (by decide)

/-- Witness for the amended C4 property at a concrete double-semicolon
statement. -/
theorem multi_statement_witness :
    (is_read_only_query "SELECT 1;;").2 = some multiStmtMsg :=
  (multi_statement_iff_total_semicolons "SELECT 1;;" (by decide) (by decide)).mpr (by decide)

/-- Claim C5 (counterexample): a completion that starts with READ_ONLY_ERROR
but carries clarification-like trailing text is diverted by the
tag-injection heuristic (checked first in the code, lines 469-494) and is
not classified as a read-only violation. -/
theorem classify_read_only_diverted :
    classify_response "q" "READ_ONLY_ERROR which table"
      = .ok "CLARIFICATION_NEEDED: READ_ONLY_ERROR which table" ∧
    classify_response "q" "READ_ONLY_ERROR which table" ≠ .ok "READ_ONLY_ERROR" := by
  exact ⟨by decide, by decide⟩

/-- Claim C5 (amended): a completion whose stripped text starts with
READ_ONLY_ERROR is classified as the read-only violation provided the
tag-injection heuristics do not fire first — that is, when the stripped
text contains a SQL keyword, or matches neither the clarification-like nor
the text-answer-like indicator lists. -/
theorem classify_read_only_after_heuristics (uq resp : String)
    (h1 : swL "READ_ONLY_ERROR".toList (stripL resp.toList) = true)
    (h2 : hasSqlKeywords (stripL resp.toList) = true ∨
          (looksLikeClarification (stripL resp.toList) = false ∧
           looksLikeTextAnswer (stripL resp.toList) = false)) :
    classify_response uq resp = .ok "READ_ONLY_ERROR" := by
  obtain ⟨t, ht, -⟩ := swL_cons _ _ _ h1
  rw [ht] at h1 h2
  have ht' : stripL resp.data = 'R' :: t := ht
  have h1' : swL ['R', 'E', 'A', 'D', '_', 'O', 'N', 'L', 'Y', '_', 'E', 'R', 'R', 'O', 'R']
      ('R' :: t) = true := h1
  have e1 : swL ['C', 'L', 'A', 'R', 'I', 'F', 'I', 'C', 'A', 'T', 'I', 'O', 'N', '_',
      'N', 'E', 'E', 'D', 'E', 'D', ':'] ('R' :: t) = false := rfl
  have e2 : swL ['L', 'O', 'G', 'I', 'C', 'A', 'L', '_', 'A', 'N', 'S', 'W', 'E', 'R', ':']
      ('R' :: t) = false := rfl
  rcases h2 with hk | ⟨hc, hta⟩
  · simp [classify_response, ht', e1, e2, hk, h1']
  · cases hkv : hasSqlKeywords ('R' :: t) with
    | true => simp [classify_response, ht', e1, e2, hkv, h1']
    | false => simp [classify_response, ht', e1, e2, hc, hta, hkv, h1']

/-- Witness: the exact READ_ONLY_ERROR completion is classified as the
read-only violation. -/
theorem classify_read_only_witness :
    classify_response "q" "READ_ONLY_ERROR" = .ok "READ_ONLY_ERROR" :=
  classify_read_only_after_heuristics "q" "READ_ONLY_ERROR" (by decide)
    (Or.inr ⟨by decide, by decide⟩)

/-- Claim C6 (code bug): the SQL Normalizer is not idempotent. On an input
containing both LOWER( and ILIKE, the first pass skips every WHERE-clause
rewrite (the early-return guard of make_case_insensitive) but still
replaces ILIKE by LIKE afterwards, so a second pass performs rewrites the
first pass skipped. -/
theorem normalize_not_idempotent :
    normalize_sql "" "SELECT * FROM T WHERE LOWER(A) = LOWER('x') AND B ILIKE 'y' AND C = 'z'"
      = .ok "SELECT * FROM T WHERE LOWER(A) = LOWER('x') AND B LIKE 'y' AND C = 'z'" ∧
    normalize_sql "" "SELECT * FROM T WHERE LOWER(A) = LOWER('x') AND B LIKE 'y' AND C = 'z'"
      = .ok "SELECT * FROM T WHERE LOWER(A) = LOWER('x') AND B LIKE '%y%' AND LOWER(C) = LOWER('z')" ∧
    ("SELECT * FROM T WHERE LOWER(A) = LOWER('x') AND B LIKE 'y' AND C = 'z'" : String)
      ≠ "SELECT * FROM T WHERE LOWER(A) = LOWER('x') AND B LIKE '%y%' AND LOWER(C) = LOWER('z')" := by
  exact ⟨by decide, by decide, by decide⟩

/-- Claim C7 (code bug): the IN rewrite wraps only the column in LOWER. The
list literals are re-quoted verbatim (despite the variable being named
lower_values in the source), so the produced predicate is
`LOWER(col) IN ('A', 'B')` and not the spec's
`LOWER(col) IN (LOWER('A'), LOWER('B'))`. -/
theorem in_rewrite_keeps_literals_unwrapped :
    make_case_insensitive "SELECT * FROM T WHERE col IN ('A','B')"
      = "SELECT * FROM T WHERE LOWER(col) IN ('A', 'B')" ∧
    make_case_insensitive "SELECT * FROM T WHERE col IN ('A','B')"
      ≠ "SELECT * FROM T WHERE LOWER(col) IN (LOWER('A'), LOWER('B'))" := by
  exact ⟨by decide, by decide⟩

/-- Claim C8: the Intent Pre-Filter blocks exactly explicit SQL-shaped write
syntax before any model dispatch. The anchored patterns match
"delete from X" and "update X set a=1" but not the natural-language
"show deleted records"; and whenever the pre-filter matches, the pipeline
returns the read-only rejection no matter what the model backend would have
answered (the result is independent of the completion). -/
theorem intent_prefilter_blocks_write_commands :
    (contains_write_operation "delete from X").1 = true ∧
    (contains_write_operation "update X set a=1").1 = true ∧
    (contains_write_operation "show deleted records").1 = false ∧
    ∀ (m r : String), (contains_write_operation m).1 = true →
      generate_sql_query m r = .ok (some "READ_ONLY_ERROR") := by
  refine ⟨by decide, by decide, by decide, ?_⟩
  intro m r h
  simp [generate_sql_query, h]

/-- Witness: a blocked message yields the read-only rejection with an
arbitrary (never consulted) model completion. -/
theorem intent_prefilter_witness :
    generate_sql_query "delete from X" "SELECT 1" = .ok (some "READ_ONLY_ERROR") :=
  intent_prefilter_blocks_write_commands.2.2.2 "delete from X" "SELECT 1" (by decide)

/-- Claim C9: the Execution Wrapper is total over execution faults. For any
database oracle and any verified-safe statement: a failing main query is
reported as the error string of the triple (never propagated); a successful
main query returns exactly the oracle's rows; and a failing COUNT(*)
wrapper query only makes the total count `none`, without touching the
primary result. -/
theorem execute_sql_query_fault_model
    (db : String → Except String (List String × List (List Val)))
    (sql : String) (limit : Int)
    (hsafe : (is_read_only_query sql).1 = true) :
    (∀ e, db (limited_query sql limit) = .error e →
        execute_sql_query db (.ok ()) sql limit
          = (none, some ("SQL execution error: " ++ e), none)) ∧
    (∀ cols rows, db (limited_query sql limit) = .ok (cols, rows) →
        execute_sql_query db (.ok ()) sql limit
          = (some (rows.map (fun row => cols.zip row)), none, total_count_of db sql)) ∧
    (∀ e, db (count_query (ilike_replaced sql)) = .error e →
        total_count_of db sql = none) := by
  rcases hE : is_read_only_query sql with ⟨b, m⟩
  rw [hE] at hsafe
  simp at hsafe
  subst hsafe
  refine ⟨?_, ?_, ?_⟩
  · intro e he
    simp [execute_sql_query, hE, he]
  · intro cols rows hok
    simp [execute_sql_query, hE, hok]
  · intro e he
    simp [total_count_of, he]

/-- Witness: with a concrete oracle whose COUNT wrapper fails, the main
query's rows are returned and only the total count is omitted. -/
theorem execute_sql_query_fault_witness :
    execute_sql_query dbW (.ok ()) "SELECT 1" 1000
      = (some [[("x", Val.int 1)]], none, none) := by
  have h := execute_sql_query_fault_model dbW "SELECT 1" 1000 (by decide)
  have hmain : dbW (limited_query "SELECT 1" 1000) = .ok (["x"], [[Val.int 1]]) := by decide
  have hcnt : dbW (count_query (ilike_replaced "SELECT 1")) = .error "count shape" := by decide
  rw [h.2.1 ["x"] [[Val.int 1]] hmain, h.2.2 "count shape" hcnt]
  rfl

/-- Claim C10: when the upper-cased input contains both LOWER( and ILIKE,
make_case_insensitive returns its input unchanged — the early-return guard
skips all three WHERE-clause rewrites. -/
theorem make_case_insensitive_guard_identity (s : String)
    (h1 : containsSubL "LOWER(".toList (upperL s.toList) = true)
    (h2 : containsSubL "ILIKE".toList (upperL s.toList) = true) :
    make_case_insensitive s = s := by
  unfold make_case_insensitive
  rw [h1, h2]
  rfl

/-- Witness: the guard leaves a mixed query untouched although its equality
predicate is not yet case-insensitive. -/
theorem make_case_insensitive_guard_witness :
    make_case_insensitive "SELECT * FROM T WHERE LOWER(A) = 'x' AND B ILIKE 'y' AND C = 'z'"
      = "SELECT * FROM T WHERE LOWER(A) = 'x' AND B ILIKE 'y' AND C = 'z'" :=
  make_case_insensitive_guard_identity
    "SELECT * FROM T WHERE LOWER(A) = 'x' AND B ILIKE 'y' AND C = 'z'" (by decide) (by decide)

end SqlService
